import Mathlib

/-!
# zwtwm: the C binding of the shell virtual desktop manager

A shallow embedding of `src/virtual_desktop_manager.cpp`.

The translation unit holds three straight-line functions that call into the
operating system.  The operating system is not part of the repository, so it
is a parameter of the embedding (`Platform`): every theorem below is
universally quantified over what the platform calls do.

Conventions of the embedding
* pointers and window handles are natural numbers, the null pointer is `0`;
* `HRESULT` (a 32-bit signed `long`) and `BOOL` (an `int`) are integers; the
  code only compares a status with `0` and never does arithmetic on it;
* caller-supplied output storage lives in `Memory`, addressed by pointer;
  a platform call receives the memory and returns the memory it leaves;
* the locals of `CreateVirtualDesktopManagerInstance` live on the stack: the
  out-parameter `&result` is passed as its prior content (the indeterminate
  value of the uninitialised local) and comes back as its new content;
* `World` pairs the memory with the list of platform calls made so far; the
  list is appended to at each call site of the source and nowhere else.
-/

namespace Zwtwm

/-! ## Data model -/

/-- Status code of a platform call, `0` is success. -/
abbrev HRESULT := Int

/-- Window identifier. -/
abbrev HWND := Nat

/-- Pointer value. -/
abbrev Addr := Nat

/-- The Win32 `BOOL`, an `int`. -/
abbrev BOOL := Int

/-- The null pointer. -/
def nullptr : Addr := 0

/-- Modelled from the spec: the `GUID` type of the Windows SDK (`guiddef.h`),
which the source includes but the repository does not hold.  It is a 16-byte
record: `Data1` is 32 bits wide, `Data2` and `Data3` are 16 bits wide, `Data4`
is eight raw bytes. -/
structure GUID where
  Data1 : Nat
  Data2 : Nat
  Data3 : Nat
  Data4 : List Nat
deriving DecidableEq, Repr

/-- The value of a 32-bit pattern read as a signed `long`. -/
def hresultOfBits (n : Nat) : HRESULT :=
  if n % 2 ^ 32 < 2 ^ 31 then Int.ofNat (n % 2 ^ 32) else Int.ofNat (n % 2 ^ 32) - 2 ^ 32

/-- The generic failure code `0x80004005`. -/
def E_FAIL : HRESULT := hresultOfBits 0x80004005

/-- The content of the caller-visible storage cells. -/
structure Memory where
  guidAt : Addr → GUID
  boolAt : Addr → BOOL

/-- Store a `GUID` at an address. -/
def Memory.writeGuid (m : Memory) (a : Addr) (g : GUID) : Memory :=
  { m with guidAt := fun x => if x = a then g else m.guidAt x }

/-- Store a `BOOL` at an address. -/
def Memory.writeBool (m : Memory) (a : Addr) (b : BOOL) : Memory :=
  { m with boolAt := fun x => if x = a then b else m.boolAt x }

/-- What the activation call hands back: its status, the new content of the
pointer cell `*ppv`, and the memory it leaves. -/
structure Activation where
  status : HRESULT
  ppv : Addr
  mem : Memory

/-- The operating system side.  The two methods are reached through the
vtable of the object at `this`; `CoCreateInstance` is the activation call.
`CLSCTX_ALL` and `IID_IVirtualDesktopManager` (what `IID_PPV_ARGS` supplies)
come from the Windows SDK headers and are kept abstract. -/
structure Platform where
  vdmGetWindowDesktopId : Addr → HWND → Addr → Memory → HRESULT × Memory
  vdmIsWindowOnCurrentVirtualDesktop : Addr → HWND → Addr → Memory → HRESULT × Memory
  CoCreateInstance : GUID → Addr → Nat → GUID → Addr → Memory → Activation
  CLSCTX_ALL : Nat
  IID_IVirtualDesktopManager : GUID

/-- A platform call together with the arguments it was made with. -/
inductive PlatformCall where
  | getWindowDesktopId (this : Addr) (hwnd : HWND) (out : Addr)
  | isWindowOnCurrentVirtualDesktop (this : Addr) (hwnd : HWND) (out : Addr)
  | coCreateInstance (rclsid : GUID) (pUnkOuter : Addr) (dwClsContext : Nat) (riid : GUID)
deriving DecidableEq, Repr

/-- Memory plus the record of platform calls made so far. -/
structure World where
  mem : Memory
  calls : List PlatformCall

/-! ## Call sites -/

/-- The call `vdm->GetWindowDesktopId(hwnd, result)`. -/
def callGetWindowDesktopId (P : Platform) (vdm : Addr) (hwnd : HWND) (result : Addr)
    (w : World) : HRESULT × World :=
  let r := P.vdmGetWindowDesktopId vdm hwnd result w.mem
  (r.1, { mem := r.2, calls := w.calls ++ [PlatformCall.getWindowDesktopId vdm hwnd result] })

/-- The call `vdm->IsWindowOnCurrentVirtualDesktop(hwnd, result)`. -/
def callIsWindowOnCurrentVirtualDesktop (P : Platform) (vdm : Addr) (hwnd : HWND)
    (result : Addr) (w : World) : HRESULT × World :=
  let r := P.vdmIsWindowOnCurrentVirtualDesktop vdm hwnd result w.mem
  (r.1, { mem := r.2,
          calls := w.calls ++ [PlatformCall.isWindowOnCurrentVirtualDesktop vdm hwnd result] })

/-- The call `CoCreateInstance(rclsid, pUnkOuter, dwClsContext, riid, ppv)`;
`ppvContent` is what the cell behind `ppv` holds when the call is made. -/
def callCoCreateInstance (P : Platform) (rclsid : GUID) (pUnkOuter : Addr)
    (dwClsContext : Nat) (riid : GUID) (ppvContent : Addr) (w : World) :
    HRESULT × Addr × World :=
  let r := P.CoCreateInstance rclsid pUnkOuter dwClsContext riid ppvContent w.mem
  (r.status, r.ppv,
    { mem := r.mem,
      calls := w.calls ++ [PlatformCall.coCreateInstance rclsid pUnkOuter dwClsContext riid] })

/-! ## The class identifier -/

/-- The array `guidBytes` of `CreateVirtualDesktopManagerInstance`. -/
def guidBytes : List Nat :=
  [0x86, 0x90, 0x50, 0xaa, 0xa9, 0x5c, 0x25, 0x4c, 0x8f, 0x95, 0x58, 0x9d, 0x3c, 0x07, 0xb4, 0x8a]

/-- The value of `sizeof(GUID)`. -/
def sizeofGUID : Nat := 16

/-- Little-endian value of a run of bytes. -/
def littleEndian : List Nat → Nat
  | [] => 0
  | b :: bs => b % 256 + 256 * littleEndian bs

/-- The call `memcpy(&guid, src, n)` onto a `GUID` whose previous content is
`old`: the first `n` bytes of the object come from `src`, the rest keep the
bytes of `old`; the object is then read back with the layout of the record
(`Data1` at offset 0, `Data2` at 4, `Data3` at 6, `Data4` at 8, integers
stored least significant byte first). -/
def memcpyGUID (old : GUID) (src : List Nat) (n : Nat) : GUID :=
  let oldBytes : List Nat :=
    (List.range 4).map (fun i => old.Data1 / 256 ^ i % 256)
      ++ (List.range 2).map (fun i => old.Data2 / 256 ^ i % 256)
      ++ (List.range 2).map (fun i => old.Data3 / 256 ^ i % 256)
      ++ (List.range 8).map (fun i => old.Data4.getD i 0 % 256)
  let bytes : List Nat :=
    (List.range 16).map (fun i => if i < n then src.getD i 0 % 256 else oldBytes.getD i 0)
  { Data1 := littleEndian (bytes.take 4)
    Data2 := littleEndian ((bytes.drop 4).take 2)
    Data3 := littleEndian ((bytes.drop 6).take 2)
    Data4 := (bytes.drop 8).take 8 }

/-- Value of one hexadecimal digit. -/
def hexDigit (c : Char) : Option Nat :=
  if 48 ≤ c.toNat ∧ c.toNat ≤ 57 then some (c.toNat - 48)
  else if 97 ≤ c.toNat ∧ c.toNat ≤ 102 then some (c.toNat - 87)
  else if 65 ≤ c.toNat ∧ c.toNat ≤ 70 then some (c.toNat - 55)
  else none

/-- Value of a run of hexadecimal digits, most significant first. -/
def hexValue : List Char → Option Nat
  | cs => cs.foldl (fun acc c => acc.bind (fun a => (hexDigit c).map (fun d => 16 * a + d))) (some 0)

/-- Split a run of hexadecimal digits into bytes, two digits each. -/
def hexBytes : List Char → Option (List Nat)
  | [] => some []
  | [_] => none
  | a :: b :: rest =>
    (hexValue [a, b]).bind (fun v => (hexBytes rest).map (fun vs => v :: vs))

/-- Cut a list of characters at every dash. -/
def splitDash : List Char → List (List Char)
  | [] => [[]]
  | c :: cs =>
    if c = '-' then [] :: splitDash cs
    else
      match splitDash cs with
      | [] => [[c]]
      | g :: gs => (c :: g) :: gs

/-- Modelled from the spec: the `DECLSPEC_UUID` annotation of the Windows SDK,
which the repository does not hold.  It attaches to a class the identifier
written as the text `xxxxxxxx-xxxx-xxxx-xxxx-xxxxxxxxxxxx`: the first three
groups are `Data1`, `Data2`, `Data3` in hexadecimal; the last two groups are
the eight bytes of `Data4` in order. -/
def guidOfUuidText (s : List Char) : Option GUID :=
  match splitDash s with
  | [g1, g2, g3, g4, g5] =>
    if g1.length = 8 ∧ g2.length = 4 ∧ g3.length = 4 ∧ g4.length = 4 ∧ g5.length = 12 then
      (hexValue g1).bind (fun d1 =>
      (hexValue g2).bind (fun d2 =>
      (hexValue g3).bind (fun d3 =>
      (hexBytes (g4 ++ g5)).map (fun d4 =>
        { Data1 := d1, Data2 := d2, Data3 := d3, Data4 := d4 }))))
    else none
  | _ => none

/-- The text given to `DECLSPEC_UUID` for the class `VirtualDesktopManager`. -/
def uuidVirtualDesktopManager : List Char :=
  "aa509086-5ca9-4c25-8f95-589d3c07b48a".toList

/-! ## The three functions of the translation unit -/

/-- The function `GetWindowDesktopId(void* ComObj, HWND hwnd, GUID* result)`. -/
def GetWindowDesktopId (P : Platform) (ComObj : Addr) (hwnd : HWND) (result : Addr)
    (w : World) : HRESULT × World :=
  let vdm : Addr := ComObj
  callGetWindowDesktopId P vdm hwnd result w

/-- The function `IsWindowOnCurrentVirtualDesktop(void* ComObj, HWND hwnd, BOOL* result)`. -/
def IsWindowOnCurrentVirtualDesktop (P : Platform) (ComObj : Addr) (hwnd : HWND)
    (result : Addr) (w : World) : HRESULT × World :=
  let vdm : Addr := ComObj
  callIsWindowOnCurrentVirtualDesktop P vdm hwnd result w

/-- The function `CreateVirtualDesktopManagerInstance()`.  `uninitResult` and
`uninitGuid` are the indeterminate contents of the locals `result` and `guid`
before they are written. -/
def CreateVirtualDesktopManagerInstance (P : Platform) (uninitResult : Addr)
    (uninitGuid : GUID) (w : World) : Addr × World :=
  let result : Addr := uninitResult
  let guid : GUID := memcpyGUID uninitGuid guidBytes sizeofGUID
  let r := callCoCreateInstance P guid nullptr P.CLSCTX_ALL P.IID_IVirtualDesktopManager result w
  if r.1 ≠ 0 then (nullptr, r.2.2)
  else (r.2.1, r.2.2)

/-! ## Simulated platforms used in the scenarios -/

/-- The all-zero identifier. -/
def zeroGuid : GUID := { Data1 := 0, Data2 := 0, Data3 := 0, Data4 := [0, 0, 0, 0, 0, 0, 0, 0] }

/-- The identifier `11111111-2222-3333-4444-555555555555`. -/
def scenarioGuid : GUID :=
  { Data1 := 0x11111111, Data2 := 0x2222, Data3 := 0x3333,
    Data4 := [0x44, 0x44, 0x55, 0x55, 0x55, 0x55, 0x55, 0x55] }

/-- Memory with every cell zero. -/
def zeroMemory : Memory := { guidAt := fun _ => zeroGuid, boolAt := fun _ => 0 }

/-- A world with zeroed memory and no call made yet. -/
def initialWorld : World := { mem := zeroMemory, calls := [] }

/-- A platform that fails every call with `E_FAIL` and writes nothing. -/
def failingPlatform : Platform :=
  { vdmGetWindowDesktopId := fun _ _ _ m => (E_FAIL, m)
    vdmIsWindowOnCurrentVirtualDesktop := fun _ _ _ m => (E_FAIL, m)
    CoCreateInstance := fun _ _ _ _ old m => { status := E_FAIL, ppv := old, mem := m }
    CLSCTX_ALL := 0x17
    IID_IVirtualDesktopManager := zeroGuid }

/-- Replace the desktop-id lookup by one that is a function of the handle and
the window identifier alone: it returns the status and stores the identifier
into the output storage. -/
def Platform.withLookup (P : Platform) (f : Addr → HWND → HRESULT × GUID) : Platform :=
  { P with vdmGetWindowDesktopId := fun this hwnd out m =>
      ((f this hwnd).1, m.writeGuid out (f this hwnd).2) }

/-- Replace the current-desktop check by one that is a function of the handle
and the window identifier alone. -/
def Platform.withCheck (P : Platform) (f : Addr → HWND → HRESULT × BOOL) : Platform :=
  { P with vdmIsWindowOnCurrentVirtualDesktop := fun this hwnd out m =>
      ((f this hwnd).1, m.writeBool out (f this hwnd).2) }

/-- Replace the activation call by one that reports `status` and stores `p`
into the output pointer. -/
def Platform.withActivation (P : Platform) (status : HRESULT) (p : Addr) : Platform :=
  { P with CoCreateInstance := fun _ _ _ _ _ m => { status := status, ppv := p, mem := m } }

/-- A world whose output cells already hold data: the identifier at address `3`
is `scenarioGuid` and the flag at address `4` is `1`. -/
def scenarioWorld : World :=
  { mem := (zeroMemory.writeGuid 3 scenarioGuid).writeBool 4 1, calls := [] }

/-! ## Theorems -/

/-- Copying the literal over a whole `GUID` gives the same record whatever the
`GUID` held before. -/
theorem memcpyGUID_guidBytes (g : GUID) :
    memcpyGUID g guidBytes sizeofGUID
      = { Data1 := 0xAA509086, Data2 := 0x5CA9, Data3 := 0x4C25,
          Data4 := [0x8F, 0x95, 0x58, 0x9D, 0x3C, 0x07, 0xB4, 0x8A] } := by
  simp [memcpyGUID, guidBytes, sizeofGUID, littleEndian, List.range, List.range.loop]

/-- The record of calls after `CreateVirtualDesktopManagerInstance`: both
branches of the status test leave the world that the activation call left. -/
theorem CreateVirtualDesktopManagerInstance_calls (P : Platform) (u : Addr) (g : GUID)
    (w : World) :
    (CreateVirtualDesktopManagerInstance P u g w).2.calls
      = w.calls ++ [PlatformCall.coCreateInstance (memcpyGUID g guidBytes sizeofGUID) nullptr
          P.CLSCTX_ALL P.IID_IVirtualDesktopManager] := by
  simp only [CreateVirtualDesktopManagerInstance, callCoCreateInstance]
  split <;> rfl

/-- C1: the desktop-id lookup makes the underlying call with the same handle,
window identifier and output address, and hands back the status of that call
and the memory that call left, whatever the platform does.  When the
underlying call is a function `f` of handle and window identifier giving a
status and an identifier, the caller gets exactly that status and finds
exactly that identifier in the output storage; so status `0` with
`11111111-2222-3333-4444-555555555555` comes back as such, the all-zero
identifier comes back all-zero, and `0x80004005` comes back as `0x80004005`. -/
theorem GetWindowDesktopId_forwards (P : Platform) (ComObj : Addr) (hwnd : HWND)
    (result : Addr) (w : World) (f : Addr → HWND → HRESULT × GUID) (g : GUID) :
    (GetWindowDesktopId P ComObj hwnd result w).1
        = (P.vdmGetWindowDesktopId ComObj hwnd result w.mem).1
    ∧ (GetWindowDesktopId P ComObj hwnd result w).2.mem
        = (P.vdmGetWindowDesktopId ComObj hwnd result w.mem).2
    ∧ (GetWindowDesktopId P ComObj hwnd result w).2.calls
        = w.calls ++ [PlatformCall.getWindowDesktopId ComObj hwnd result]
    ∧ (GetWindowDesktopId (P.withLookup f) ComObj hwnd result w).1 = (f ComObj hwnd).1
    ∧ (GetWindowDesktopId (P.withLookup f) ComObj hwnd result w).2.mem.guidAt result
        = (f ComObj hwnd).2
    ∧ (GetWindowDesktopId (P.withLookup (fun _ _ => (0, scenarioGuid))) ComObj hwnd result w).1 = 0
    ∧ (GetWindowDesktopId (P.withLookup (fun _ _ => (0, scenarioGuid))) ComObj hwnd result
          w).2.mem.guidAt result = scenarioGuid
    ∧ guidOfUuidText "11111111-2222-3333-4444-555555555555".toList = some scenarioGuid
    ∧ (GetWindowDesktopId (P.withLookup (fun _ _ => (0, zeroGuid))) ComObj hwnd result
          w).2.mem.guidAt result = zeroGuid
    ∧ (GetWindowDesktopId (P.withLookup (fun _ _ => (E_FAIL, g))) ComObj hwnd result w).1
        = hresultOfBits 0x80004005 := by
  refine ⟨rfl, rfl, rfl, rfl, ?_, rfl, ?_, rfl, ?_, rfl⟩ <;>
    simp [GetWindowDesktopId, callGetWindowDesktopId, Platform.withLookup, Memory.writeGuid]

/-- C2: the current-desktop check makes the underlying call with the same
handle, window identifier and output address, and hands back the status of
that call and the memory that call left.  When the underlying call is a
function `f` of handle and window identifier giving a status and a flag, the
caller gets exactly that status and finds exactly that flag in the output
storage, for the flags `1` and `0` and for every status, zero or not. -/
theorem IsWindowOnCurrentVirtualDesktop_forwards (P : Platform) (ComObj : Addr) (hwnd : HWND)
    (result : Addr) (w : World) (f : Addr → HWND → HRESULT × BOOL) (s : HRESULT) :
    (IsWindowOnCurrentVirtualDesktop P ComObj hwnd result w).1
        = (P.vdmIsWindowOnCurrentVirtualDesktop ComObj hwnd result w.mem).1
    ∧ (IsWindowOnCurrentVirtualDesktop P ComObj hwnd result w).2.mem
        = (P.vdmIsWindowOnCurrentVirtualDesktop ComObj hwnd result w.mem).2
    ∧ (IsWindowOnCurrentVirtualDesktop P ComObj hwnd result w).2.calls
        = w.calls ++ [PlatformCall.isWindowOnCurrentVirtualDesktop ComObj hwnd result]
    ∧ (IsWindowOnCurrentVirtualDesktop (P.withCheck f) ComObj hwnd result w).1
        = (f ComObj hwnd).1
    ∧ (IsWindowOnCurrentVirtualDesktop (P.withCheck f) ComObj hwnd result w).2.mem.boolAt result
        = (f ComObj hwnd).2
    ∧ (IsWindowOnCurrentVirtualDesktop (P.withCheck (fun _ _ => (s, 1))) ComObj hwnd result w).1
        = s
    ∧ (IsWindowOnCurrentVirtualDesktop (P.withCheck (fun _ _ => (s, 1))) ComObj hwnd result
          w).2.mem.boolAt result = 1
    ∧ (IsWindowOnCurrentVirtualDesktop (P.withCheck (fun _ _ => (s, 0))) ComObj hwnd result w).1
        = s
    ∧ (IsWindowOnCurrentVirtualDesktop (P.withCheck (fun _ _ => (s, 0))) ComObj hwnd result
          w).2.mem.boolAt result = 0 := by
  refine ⟨rfl, rfl, rfl, rfl, ?_, rfl, ?_, rfl, ?_⟩ <;>
    simp [IsWindowOnCurrentVirtualDesktop, callIsWindowOnCurrentVirtualDesktop,
      Platform.withCheck, Memory.writeBool]

/-- C3: when the activation call reports a non-zero status, whatever it wrote
into the output pointer, `CreateVirtualDesktopManagerInstance` returns the
null handle; two runs whose activation calls both fail, with any two non-zero
statuses, return the same handle.  In particular this holds for the negative
code `0x80004005` and for the positive code `1`, with any pointer `p` written. -/
theorem CreateVirtualDesktopManagerInstance_failure_null (P Q : Platform)
    (uP uQ p : Addr) (gP gQ : GUID) (w x : World)
    (hP : (P.CoCreateInstance (memcpyGUID gP guidBytes sizeofGUID) nullptr P.CLSCTX_ALL
            P.IID_IVirtualDesktopManager uP w.mem).status ≠ 0)
    (hQ : (Q.CoCreateInstance (memcpyGUID gQ guidBytes sizeofGUID) nullptr Q.CLSCTX_ALL
            Q.IID_IVirtualDesktopManager uQ x.mem).status ≠ 0) :
    (CreateVirtualDesktopManagerInstance P uP gP w).1 = nullptr
    ∧ (CreateVirtualDesktopManagerInstance P uP gP w).1
        = (CreateVirtualDesktopManagerInstance Q uQ gQ x).1
    ∧ (CreateVirtualDesktopManagerInstance (P.withActivation E_FAIL p) uP gP w).1 = nullptr
    ∧ (CreateVirtualDesktopManagerInstance (P.withActivation 1 p) uP gP w).1 = nullptr := by
  have e1 : (CreateVirtualDesktopManagerInstance P uP gP w).1 = nullptr := by
    simp only [CreateVirtualDesktopManagerInstance, callCoCreateInstance]
    rw [if_pos hP]
  have e2 : (CreateVirtualDesktopManagerInstance Q uQ gQ x).1 = nullptr := by
    simp only [CreateVirtualDesktopManagerInstance, callCoCreateInstance]
    rw [if_pos hQ]
  refine ⟨e1, e1.trans e2.symm, ?_, ?_⟩
  · have h : E_FAIL ≠ 0 := by decide
    simp [CreateVirtualDesktopManagerInstance, callCoCreateInstance, Platform.withActivation, h]
  · simp [CreateVirtualDesktopManagerInstance, callCoCreateInstance, Platform.withActivation]

/-- Witness of C3: one activation fails with `0x80004005` after writing the
pointer `0xdead`, another fails with `1` after writing `0xbeef`. -/
theorem CreateVirtualDesktopManagerInstance_failure_null_witness :
    ((failingPlatform.withActivation E_FAIL 0xdead).CoCreateInstance
        (memcpyGUID zeroGuid guidBytes sizeofGUID) nullptr 0x17 zeroGuid 7
        initialWorld.mem).status = -2147467259
    ∧ (CreateVirtualDesktopManagerInstance (failingPlatform.withActivation E_FAIL 0xdead) 7
        zeroGuid initialWorld).1 = nullptr
    ∧ (CreateVirtualDesktopManagerInstance (failingPlatform.withActivation E_FAIL 0xdead) 7
        zeroGuid initialWorld).1
        = (CreateVirtualDesktopManagerInstance (failingPlatform.withActivation 1 0xbeef) 9
            scenarioGuid scenarioWorld).1 :=
  ⟨by decide,
   (CreateVirtualDesktopManagerInstance_failure_null
      (failingPlatform.withActivation E_FAIL 0xdead) (failingPlatform.withActivation 1 0xbeef)
      7 9 0 zeroGuid scenarioGuid initialWorld scenarioWorld (by decide) (by decide)).1,
   (CreateVirtualDesktopManagerInstance_failure_null
      (failingPlatform.withActivation E_FAIL 0xdead) (failingPlatform.withActivation 1 0xbeef)
      7 9 0 zeroGuid scenarioGuid initialWorld scenarioWorld (by decide) (by decide)).2.1⟩

/-- C4, as stated, fails: an activation call that reports status `0` and
stores the null pointer makes `CreateVirtualDesktopManagerInstance` return the
null handle, although the local `result` held the non-null value `7` before. -/
theorem CreateVirtualDesktopManagerInstance_success_may_be_null :
    ((failingPlatform.withActivation 0 nullptr).CoCreateInstance
        (memcpyGUID zeroGuid guidBytes sizeofGUID) nullptr
        (failingPlatform.withActivation 0 nullptr).CLSCTX_ALL
        (failingPlatform.withActivation 0 nullptr).IID_IVirtualDesktopManager 7
        initialWorld.mem).status = 0
    ∧ (CreateVirtualDesktopManagerInstance (failingPlatform.withActivation 0 nullptr) 7
        zeroGuid initialWorld).1 = nullptr := by
  decide

/-- C4, amended: when the activation call reports status `0` and the pointer
it stored into its output parameter is not null, the handle returned by
`CreateVirtualDesktopManagerInstance` is not null. -/
theorem CreateVirtualDesktopManagerInstance_success_nonnull (P : Platform) (u : Addr)
    (g : GUID) (w : World)
    (hs : (P.CoCreateInstance (memcpyGUID g guidBytes sizeofGUID) nullptr P.CLSCTX_ALL
            P.IID_IVirtualDesktopManager u w.mem).status = 0)
    (hp : (P.CoCreateInstance (memcpyGUID g guidBytes sizeofGUID) nullptr P.CLSCTX_ALL
            P.IID_IVirtualDesktopManager u w.mem).ppv ≠ nullptr) :
    (CreateVirtualDesktopManagerInstance P u g w).1 ≠ nullptr := by
  simp only [CreateVirtualDesktopManagerInstance, callCoCreateInstance]
  rw [if_neg (not_not.mpr hs)]
  exact hp

/-- Witness of the amended C4: the activation reports `0` and stores `0x1000`. -/
theorem CreateVirtualDesktopManagerInstance_success_nonnull_witness :
    (CreateVirtualDesktopManagerInstance (failingPlatform.withActivation 0 0x1000) 0
        zeroGuid initialWorld).1 ≠ nullptr :=
  CreateVirtualDesktopManagerInstance_success_nonnull (failingPlatform.withActivation 0 0x1000)
    0 zeroGuid initialWorld (by decide) (by decide)

/-- C5: the class identifier handed to the activation call is the 16-byte
literal `86 90 50 AA A9 5C 25 4C 8F 95 58 9D 3C 07 B4 8A` copied over the
whole `GUID`; read with the little-endian layout it is `Data1 = 0xAA509086`,
`Data2 = 0x5CA9`, `Data3 = 0x4C25`, `Data4 = 8F 95 58 9D 3C 07 B4 8A`, whatever
the local held before, and it is the identifier that the text
`aa509086-5ca9-4c25-8f95-589d3c07b48a` given to `DECLSPEC_UUID` denotes. -/
theorem CreateVirtualDesktopManagerInstance_clsid (P : Platform) (u : Addr) (g : GUID)
    (w : World) :
    guidBytes
        = [0x86, 0x90, 0x50, 0xAA, 0xA9, 0x5C, 0x25, 0x4C, 0x8F, 0x95, 0x58, 0x9D, 0x3C, 0x07,
            0xB4, 0x8A]
    ∧ memcpyGUID g guidBytes sizeofGUID
        = { Data1 := 0xAA509086, Data2 := 0x5CA9, Data3 := 0x4C25,
            Data4 := [0x8F, 0x95, 0x58, 0x9D, 0x3C, 0x07, 0xB4, 0x8A] }
    ∧ guidOfUuidText "aa509086-5ca9-4c25-8f95-589d3c07b48a".toList
        = some (memcpyGUID g guidBytes sizeofGUID)
    ∧ guidOfUuidText uuidVirtualDesktopManager = some (memcpyGUID g guidBytes sizeofGUID)
    ∧ (CreateVirtualDesktopManagerInstance P u g w).2.calls
        = w.calls ++ [PlatformCall.coCreateInstance
            { Data1 := 0xAA509086, Data2 := 0x5CA9, Data3 := 0x4C25,
              Data4 := [0x8F, 0x95, 0x58, 0x9D, 0x3C, 0x07, 0xB4, 0x8A] }
            nullptr P.CLSCTX_ALL P.IID_IVirtualDesktopManager] := by
  refine ⟨rfl, memcpyGUID_guidBytes g, ?_, ?_, ?_⟩
  · rw [memcpyGUID_guidBytes g]; rfl
  · rw [memcpyGUID_guidBytes g]; rfl
  · rw [CreateVirtualDesktopManagerInstance_calls, memcpyGUID_guidBytes g]

/-- C6: no operation retries.  Each run of `CreateVirtualDesktopManagerInstance`
adds exactly one entry to the record of platform calls, the activation call;
each run of `GetWindowDesktopId` and of `IsWindowOnCurrentVirtualDesktop` adds
exactly one entry, the call of the corresponding method; this holds for every
platform, hence for every status the call returns. -/
theorem no_retry (P : Platform) (ComObj : Addr) (hwnd : HWND) (result u : Addr) (g : GUID)
    (w : World) :
    (CreateVirtualDesktopManagerInstance P u g w).2.calls
        = w.calls ++ [PlatformCall.coCreateInstance (memcpyGUID g guidBytes sizeofGUID) nullptr
            P.CLSCTX_ALL P.IID_IVirtualDesktopManager]
    ∧ (CreateVirtualDesktopManagerInstance P u g w).2.calls.length = w.calls.length + 1
    ∧ (GetWindowDesktopId P ComObj hwnd result w).2.calls
        = w.calls ++ [PlatformCall.getWindowDesktopId ComObj hwnd result]
    ∧ (GetWindowDesktopId P ComObj hwnd result w).2.calls.length = w.calls.length + 1
    ∧ (IsWindowOnCurrentVirtualDesktop P ComObj hwnd result w).2.calls
        = w.calls ++ [PlatformCall.isWindowOnCurrentVirtualDesktop ComObj hwnd result]
    ∧ (IsWindowOnCurrentVirtualDesktop P ComObj hwnd result w).2.calls.length
        = w.calls.length + 1 := by
  refine ⟨CreateVirtualDesktopManagerInstance_calls P u g w, ?_, rfl, ?_, rfl, ?_⟩
  · rw [CreateVirtualDesktopManagerInstance_calls]; simp
  · simp [GetWindowDesktopId, callGetWindowDesktopId]
  · simp [IsWindowOnCurrentVirtualDesktop, callIsWindowOnCurrentVirtualDesktop]

/-- C7: when the activation call reports status `0`,
`CreateVirtualDesktopManagerInstance` returns exactly the pointer that the
activation call stored into its output parameter; so the returned handle is
null if and only if the stored pointer is null. -/
theorem CreateVirtualDesktopManagerInstance_success_pointer (P : Platform) (u : Addr)
    (g : GUID) (w : World)
    (hs : (P.CoCreateInstance (memcpyGUID g guidBytes sizeofGUID) nullptr P.CLSCTX_ALL
            P.IID_IVirtualDesktopManager u w.mem).status = 0) :
    (CreateVirtualDesktopManagerInstance P u g w).1
        = (P.CoCreateInstance (memcpyGUID g guidBytes sizeofGUID) nullptr P.CLSCTX_ALL
            P.IID_IVirtualDesktopManager u w.mem).ppv
    ∧ ((CreateVirtualDesktopManagerInstance P u g w).1 = nullptr
        ↔ (P.CoCreateInstance (memcpyGUID g guidBytes sizeofGUID) nullptr P.CLSCTX_ALL
            P.IID_IVirtualDesktopManager u w.mem).ppv = nullptr) := by
  have e : (CreateVirtualDesktopManagerInstance P u g w).1
      = (P.CoCreateInstance (memcpyGUID g guidBytes sizeofGUID) nullptr P.CLSCTX_ALL
          P.IID_IVirtualDesktopManager u w.mem).ppv := by
    simp only [CreateVirtualDesktopManagerInstance, callCoCreateInstance]
    rw [if_neg (not_not.mpr hs)]
  exact ⟨e, by rw [e]⟩

/-- Witness of C7: the activation reports `0` and stores `0x2000` over the
indeterminate value `5` of the local. -/
theorem CreateVirtualDesktopManagerInstance_success_pointer_witness :
    (CreateVirtualDesktopManagerInstance (failingPlatform.withActivation 0 0x2000) 5
        scenarioGuid scenarioWorld).1 = 0x2000 :=
  (CreateVirtualDesktopManagerInstance_success_pointer (failingPlatform.withActivation 0 0x2000)
    5 scenarioGuid scenarioWorld (by decide)).1

/-- C8: the two query functions do not write the output storage themselves.
If the underlying call of `GetWindowDesktopId` leaves the identifier at
`result` as it was, the identifier at `result` after the function returns is
the one that was there before; likewise for the flag at `result` and
`IsWindowOnCurrentVirtualDesktop`. -/
theorem wrappers_leave_output_untouched (P : Platform) (ComObj : Addr) (hwnd : HWND)
    (result : Addr) (w : World) :
    ((P.vdmGetWindowDesktopId ComObj hwnd result w.mem).2.guidAt result = w.mem.guidAt result →
      (GetWindowDesktopId P ComObj hwnd result w).2.mem.guidAt result = w.mem.guidAt result)
    ∧ ((P.vdmIsWindowOnCurrentVirtualDesktop ComObj hwnd result w.mem).2.boolAt result
          = w.mem.boolAt result →
      (IsWindowOnCurrentVirtualDesktop P ComObj hwnd result w).2.mem.boolAt result
          = w.mem.boolAt result) :=
  ⟨fun h => h, fun h => h⟩

/-- Witness of C8: the platform fails with `0x80004005` and writes nothing;
the identifier at address `3` is still `11111111-2222-3333-4444-555555555555`
and the flag at address `4` is still `1`. -/
theorem wrappers_leave_output_untouched_witness :
    (GetWindowDesktopId failingPlatform 1 2 3 scenarioWorld).1 = E_FAIL
    ∧ (GetWindowDesktopId failingPlatform 1 2 3 scenarioWorld).2.mem.guidAt 3 = scenarioGuid
    ∧ (IsWindowOnCurrentVirtualDesktop failingPlatform 1 2 4 scenarioWorld).2.mem.boolAt 4 = 1 :=
  ⟨rfl,
   (wrappers_leave_output_untouched failingPlatform 1 2 3 scenarioWorld).1 rfl,
   (wrappers_leave_output_untouched failingPlatform 1 2 4 scenarioWorld).2 rfl⟩

end Zwtwm
